import Mathlib

/-!
Verification development for the krkr-xp3 archive tool.

Shallow embedding of the Python sources:
  src/structs/file.py        (XP3File: segment reading, checksum-keyed XOR)
  src/structs/file_entry.py  (chunk serialization of file entries)
  src/structs/file_index.py  (index location state machine, index serialization)
  src/xp3writer.py           (XP3Writer: add, pack_up, _create_file_entry)
  src/structs/encryption_parameters.py (profile table)

Bytes are modelled as `Nat` (values below 256 on real data), byte strings as
`List Nat`.  External libraries (`zlib.compress`/`zlib.decompress`,
`hashlib.md5`) are taken as function parameters; `zlib.adler32` is written out
(it is the standard Adler-32 rolling checksum, fixed by the spec).  Fallible
Python code (exceptions) is modelled with `Except PyErr`.
-/

/-- Python exception kinds raised by the embedded code. -/
inductive PyErr where
  | structError
  | typeError
  | attributeError
  | keyError
  | indexError
  | zlibError
  | fileExistsError
  | decryptionError
  | exception (msg : String)
  | assertionError (msg : String)
deriving DecidableEq, Repr

/-! ## Byte-level primitives -/

/-- Little-endian value of a byte list (first byte least significant). -/
def leBytes : List Nat → Nat
  | [] => 0
  | b :: rest => b + 256 * leBytes rest

/-- Embedding of `struct.pack` of an 8-byte little-endian unsigned integer. -/
def pack64 (n : Nat) : List Nat :=
  [n % 256, (n >>> 8) % 256, (n >>> 16) % 256, (n >>> 24) % 256,
   (n >>> 32) % 256, (n >>> 40) % 256, (n >>> 48) % 256, (n >>> 56) % 256]

/-- Embedding of `struct.pack` of a 4-byte little-endian unsigned integer. -/
def pack32 (n : Nat) : List Nat :=
  [n % 256, (n >>> 8) % 256, (n >>> 16) % 256, (n >>> 24) % 256]

/-- Embedding of `struct.pack` of a 2-byte little-endian unsigned integer. -/
def pack16 (n : Nat) : List Nat :=
  [n % 256, (n >>> 8) % 256]

/-- Embedding of `struct.unpack(fmt, buffer.read(n))`: the unpack raises `struct.error`
unless exactly `n` bytes are available, so a short read is `none`. -/
def readExact (buf : List Nat) (pos n : Nat) : Option (List Nat) :=
  if pos + n ≤ buf.length then some ((buf.drop pos).take n) else none

/-- A bare `buffer.read(n)`, which returns up to `n` bytes without error. -/
def readUpTo (buf : List Nat) (pos n : Nat) : List Nat :=
  (buf.drop pos).take n

/-- The byte at an absolute position, when present. -/
def byteAt (buf : List Nat) (pos : Nat) : Option Nat :=
  (buf.drop pos).head?

/-- Embedding of `buffer.seek(pos)` followed by `buffer.write(data)` on a `BytesIO`:
overwrites in place and extends the buffer as needed. -/
def bwrite (buf : List Nat) (pos : Nat) (data : List Nat) : List Nat :=
  let padded := buf ++ List.replicate (pos - buf.length) 0
  padded.take pos ++ data ++ padded.drop (pos + data.length)

/-- Embedding of `zlib.adler32`: the standard Adler-32 rolling checksum (spec section 6),
starting from a = 1, b = 0, both mod 65521; the result is b * 65536 + a. -/
def adler32 (data : List Nat) : Nat :=
  let p := data.foldl
    (fun (ab : Nat × Nat) c =>
      ((ab.1 + c) % 65521, (ab.2 + (ab.1 + c) % 65521) % 65521))
    (1, 0)
  p.2 * 65536 + p.1

/-- Embedding of `str.encode('utf-16le')` for one character, surrogate pairs included. -/
def utf16Char (c : Char) : List Nat :=
  let v := c.toNat
  if v < 0x10000 then [v % 256, (v >>> 8) % 256]
  else
    let u := v - 0x10000
    let hi := 0xD800 + u / 0x400
    let lo := 0xDC00 + u % 0x400
    [hi % 256, (hi >>> 8) % 256, lo % 256, (lo >>> 8) % 256]

/-- Embedding of `str.encode('utf-16le')` of a whole string. -/
def utf16le (s : String) : List Nat :=
  s.data.flatMap utf16Char

/-! ## Constants (src/structs/constants.py is imported by the sources but the
file itself is not under src/, so the values are recovered as stated below) -/

/-- The 11-byte archive signature, from `src/xp3.py` line 21
(`b'XP3\x0D\x0A\x20\x0A\x1A\x8B\x67\x01'`). -/
def XP3Signature : List Nat :=
  [0x58, 0x50, 0x33, 0x0D, 0x0A, 0x20, 0x0A, 0x1A, 0x8B, 0x67, 0x01]

/-- Legacy continuation flag, from spec section 6 (0x80), corroborated by the
legacy reader in `src/xp3.py` line 280. -/
def XP3FileIndexContinue : Nat := 0x80

/-- Compressed-index flag, from spec section 6 (0x01), corroborated by
`src/xp3.py` lines 209 and 289. -/
def XP3FileIndexCompressed : Nat := 0x01

/-- Modelled from the spec: raw-index flag 0x00 (spec section 6);
`structs/constants.py` is absent from src/. -/
def Xp3FileIndexUncompressed : Nat := 0x00

/-- Modelled from the spec: the info chunk flag word marks encryption in
bit 0 (spec section 4.2); `structs/constants.py` is absent from src/. -/
def XP3FileIsEncrypted : Nat := 1

/-! ## Encryption profile table (src/structs/encryption_parameters.py) -/

/-- Profile table: master key, secondary key, XOR-the-first-byte flag and the
encryption chunk tag.  A missing key is a Python `KeyError` at lookup sites. -/
def encryption_parameters (k : String) : Option (Nat × Nat × Bool × List Nat) :=
  if k = "none" then some (0x00000000, 0x00, false, [0x65, 0x6C, 0x69, 0x46])
  else if k = "neko_vol1" then some (0x1548E29C, 0xD7, false, [0x65, 0x6C, 0x69, 0x46])
  else if k = "neko_vol1_steam" then some (0x44528B87, 0x23, false, [0x65, 0x6C, 0x69, 0x46])
  else if k = "neko_vol0" then some (0x1548E29C, 0xD7, true, [0x6E, 0x65, 0x6B, 0x6F])
  else if k = "neko_vol0_steam" then some (0x44528B87, 0x23, true, [0x6E, 0x65, 0x6B, 0x6F])
  else none

/-! ## The XOR keystream transform (src/structs/file.py, XP3File.xor)

The source has two backends: a numpy (vectorized) path, lines 84 to 105, and a
pure-Python path over `array('B')`, lines 106 to 122.  Both are embedded
separately, mirroring the duplicated key derivation of the source. -/

/-- The numpy backend (src/structs/file.py lines 84 to 105).  Slicing
`data[:1]` of an empty array is empty, so the first-byte step is a no-op on
empty input and the backend is total. -/
def XP3File.xorNumpy (master_key secondary_key : Nat) (xor_the_first_byte : Bool)
    (adler : Nat) (data : List Nat) : List Nat :=
  let adler_key := adler ^^^ master_key
  let folded := (adler_key >>> 24 ^^^ adler_key >>> 16 ^^^ adler_key >>> 8 ^^^ adler_key) &&& 0xFF
  let xor_key := if folded = 0 then secondary_key else folded
  let data1 :=
    if xor_the_first_byte then
      let fk := adler_key &&& 0xFF
      let first_byte_key := if fk = 0 then master_key &&& 0xFF else fk
      match data with
      | [] => []
      | b :: rest => (b ^^^ first_byte_key) :: rest
    else data
  data1.map (fun x => x ^^^ xor_key)

/-- The pure-Python backend (src/structs/file.py lines 106 to 122).
`data[0] ^= first_byte_key` raises `IndexError` on an empty array, so the
first-byte step fails on empty input when the profile sets the flag. -/
def XP3File.xorPython (master_key secondary_key : Nat) (xor_the_first_byte : Bool)
    (adler : Nat) (data : List Nat) : Except PyErr (List Nat) :=
  let adler_key := adler ^^^ master_key
  let folded := (adler_key >>> 24 ^^^ adler_key >>> 16 ^^^ adler_key >>> 8 ^^^ adler_key) &&& 0xFF
  let xor_key := if folded = 0 then secondary_key else folded
  if xor_the_first_byte then
    let fk := adler_key &&& 0xFF
    let first_byte_key := if fk = 0 then master_key &&& 0xFF else fk
    match data with
    | [] => Except.error PyErr.indexError
    | b :: rest =>
        Except.ok (((b ^^^ first_byte_key) :: rest).map (fun x => x ^^^ xor_key))
  else Except.ok (data.map (fun x => x ^^^ xor_key))

/-- Method `XP3File.xor` (src/structs/file.py lines 75 to 126): looks the profile up
(`KeyError` when absent), then dispatches on `numpy and use_numpy`. -/
def XP3File.xor (use_numpy numpy_available : Bool) (encryption_type : String)
    (adler : Nat) (data : List Nat) : Except PyErr (List Nat) :=
  match encryption_parameters encryption_type with
  | none => Except.error PyErr.keyError
  | some (master_key, secondary_key, xor_the_first_byte, _) =>
      if numpy_available && use_numpy then
        Except.ok (XP3File.xorNumpy master_key secondary_key xor_the_first_byte adler data)
      else
        XP3File.xorPython master_key secondary_key xor_the_first_byte adler data

/-! ## File entry data model (src/structs/file_entry.py) -/

/-- Class `XP3FileTime` (src/structs/file_entry.py lines 45 to 60). -/
structure XP3FileTime where
  timestamp : Nat
deriving DecidableEq, Repr

/-- Class `XP3FileAdler` (src/structs/file_entry.py lines 144 to 165). -/
structure XP3FileAdler where
  value : Nat
deriving DecidableEq, Repr

/-- The `Segment` namedtuple (src/structs/file_entry.py line 64); note the
first field is named `is_compressed`. -/
structure Segment where
  is_compressed : Bool
  offset : Nat
  uncompressed_size : Nat
  compressed_size : Nat
deriving DecidableEq, Repr

/-- Class `XP3FileSegments` (src/structs/file_entry.py lines 63 to 102). -/
structure XP3FileSegments where
  segments : List Segment
deriving DecidableEq, Repr

/-- Class `XP3FileInfo` (src/structs/file_entry.py lines 105 to 141). -/
structure XP3FileInfo where
  is_encrypted : Bool
  uncompressed_size : Nat
  compressed_size : Nat
  file_path : String
deriving DecidableEq, Repr

/-- Class `XP3FileEncryption` (src/structs/file_entry.py lines 9 to 42); `name` is
the 4-byte chunk tag (`b'eliF'` or `b'neko'`). -/
structure XP3FileEncryption where
  name : List Nat
  adler32 : Nat
  file_path : String
deriving DecidableEq, Repr

/-- Class `XP3FileEntry` (src/structs/file_entry.py lines 168 to 244). -/
structure XP3FileEntry where
  encryption : Option XP3FileEncryption
  time : XP3FileTime
  adlr : XP3FileAdler
  segm : XP3FileSegments
  info : XP3FileInfo
deriving DecidableEq, Repr

/-- Property `XP3FileEntry.is_encrypted`: `bool(self.encryption)`. -/
def XP3FileEntry.is_encrypted (e : XP3FileEntry) : Bool :=
  e.encryption.isSome

/-- Property `XP3FileEntry.adler32` property. -/
def XP3FileEntry.adler32 (e : XP3FileEntry) : Nat :=
  e.adlr.value

/-- Property `XP3FileEntry.file_path` property: the encryption chunk's path when
encrypted, the info chunk's path otherwise. -/
def XP3FileEntry.file_path (e : XP3FileEntry) : String :=
  match e.encryption with
  | some enc => enc.file_path
  | none => e.info.file_path

/-! ## Chunk serialization (the `to_bytes` methods of file_entry.py) -/

/-- Method `XP3FileTime.to_bytes`: `b'time'` + length 8 + 8-byte timestamp. -/
def XP3FileTime.to_bytes (t : XP3FileTime) : List Nat :=
  [0x74, 0x69, 0x6D, 0x65] ++ pack64 8 ++ pack64 t.timestamp

/-- Method `XP3FileAdler.to_bytes`: `b'adlr'` + length 4 + 4-byte checksum. -/
def XP3FileAdler.to_bytes (a : XP3FileAdler) : List Nat :=
  [0x61, 0x64, 0x6C, 0x72] ++ pack64 4 ++ pack32 a.value

/-- One packed segment record, `struct.Struct('<?xxxQQQ')`: a boolean byte,
3 padding bytes, then offset, uncompressed size, compressed size. -/
def Segment.to_bytes (s : Segment) : List Nat :=
  [if s.is_compressed then 1 else 0, 0, 0, 0] ++
  pack64 s.offset ++ pack64 s.uncompressed_size ++ pack64 s.compressed_size

/-- Method `XP3FileSegments.to_bytes`: `b'segm'` + length (28 per segment) + records. -/
def XP3FileSegments.to_bytes (s : XP3FileSegments) : List Nat :=
  [0x73, 0x65, 0x67, 0x6D] ++ pack64 (s.segments.length * 28) ++
  (s.segments.map Segment.to_bytes).flatten

/-- Method `XP3FileInfo.to_bytes`: `b'info'` + declared size + 4-byte flags + sizes +
2-byte path length + UTF-16LE path + 2-byte null terminator. -/
def XP3FileInfo.to_bytes (i : XP3FileInfo) : List Nat :=
  [0x69, 0x6E, 0x66, 0x6F] ++
  pack64 (4 + 8 + 8 + 2 + i.file_path.length * 2 + 2) ++
  pack32 (if i.is_encrypted then XP3FileIsEncrypted else 0) ++
  pack64 i.uncompressed_size ++ pack64 i.compressed_size ++
  pack16 i.file_path.length ++ utf16le i.file_path ++ [0, 0]

/-- Method `XP3FileEncryption.to_bytes`: tag + declared size + 4-byte checksum +
2-byte path length + UTF-16LE path + 2-byte null terminator. -/
def XP3FileEncryption.to_bytes (e : XP3FileEncryption) : List Nat :=
  e.name ++ pack64 (4 + 2 + e.file_path.length * 2 + 2) ++
  pack32 e.adler32 ++ pack16 e.file_path.length ++ utf16le e.file_path ++ [0, 0]

/-- Method `XP3FileEntry.to_bytes`: optional encryption chunk, then `b'File'` +
8-byte body length + the time/adlr/segm/info sub-chunks. -/
def XP3FileEntry.to_bytes (e : XP3FileEntry) : List Nat :=
  let entry := e.time.to_bytes ++ e.adlr.to_bytes ++ e.segm.to_bytes ++ e.info.to_bytes
  let header := [0x46, 0x69, 0x6C, 0x65] ++ pack64 entry.length
  (match e.encryption with
   | some enc => enc.to_bytes
   | none => []) ++ header ++ entry

/-! ## Index codec (src/structs/file_index.py) -/

/-- The decode step of `XP3FileIndex.read_index` (src/structs/file_index.py
lines 82 to 94), the `if`/`elif`/`else` over the flag byte once indirection is
resolved; `cur` is the cursor just past the flag byte.  `decomp` stands for
`zlib.decompress`, returning `none` where zlib would raise. -/
def XP3FileIndex.decode_at (decomp : List Nat → Option (List Nat))
    (buf : List Nat) (flag cur : Nat) : Except PyErr (List Nat) :=
  if flag = XP3FileIndexCompressed then
    match readExact buf cur 16 with
    | none => Except.error PyErr.structError
    | some sz =>
        let compressed_size := leBytes (sz.take 8)
        let uncompressed_size := leBytes (sz.drop 8)
        match decomp (readUpTo buf (cur + 16) compressed_size) with
        | none => Except.error PyErr.zlibError
        | some index =>
            if index.length ≠ uncompressed_size then
              Except.error (PyErr.assertionError "Index size mismatch")
            else Except.ok index
  else if flag = Xp3FileIndexUncompressed then
    match readExact buf cur 8 with
    | none => Except.error PyErr.structError
    | some szb => Except.ok (readUpTo buf (cur + 8) (leBytes szb))
  else Except.error (PyErr.assertionError "Unexpected index flag")

/-- Method `XP3FileIndex.read_index` (src/structs/file_index.py lines 68 to 94):
read the 8-byte offset at the current position, fail on zero, seek there, read
the flag byte; on the legacy continuation flag skip 8 reserved bytes, read the
8-byte redirect offset and re-read the flag at the new location; then decode. -/
def XP3FileIndex.read_index (decomp : List Nat → Option (List Nat))
    (buf : List Nat) (pos : Nat) : Except PyErr (List Nat) :=
  match readExact buf pos 8 with
  | none => Except.error PyErr.structError
  | some ob =>
      if leBytes ob = 0 then
        Except.error (PyErr.assertionError "File index offset is missing")
      else
        match byteAt buf (leBytes ob) with
        | none => Except.error PyErr.structError
        | some flag =>
            if flag = XP3FileIndexContinue then
              match readExact buf (leBytes ob + 1) 16 with
              | none => Except.error PyErr.structError
              | some c =>
                  match byteAt buf (leBytes (c.drop 8)) with
                  | none => Except.error PyErr.structError
                  | some flag2 =>
                      XP3FileIndex.decode_at decomp buf flag2 (leBytes (c.drop 8) + 1)
            else XP3FileIndex.decode_at decomp buf flag (leBytes ob + 1)

/-- Method `XP3FileIndex.to_bytes` (src/structs/file_index.py lines 96 to 104):
serialize all entries, deflate, and keep the compressed form only when it wins
after header overhead (the compressed header carries two sizes, the raw header
one).  `compress` stands for `zlib.compress(..., level=9)`. -/
def XP3FileIndex.to_bytes (compress : List Nat → List Nat)
    (entries : List XP3FileEntry) : List Nat :=
  let uncompressed_index := (entries.map XP3FileEntry.to_bytes).flatten
  let compressed_index := compress uncompressed_index
  let uncompressed_size := uncompressed_index.length
  let compressed_size := compressed_index.length
  if compressed_size + 1 + 8 + 8 < uncompressed_size + 1 + 8 then
    [XP3FileIndexCompressed] ++ pack64 compressed_size ++
      pack64 uncompressed_size ++ compressed_index
  else
    [Xp3FileIndexUncompressed] ++ pack64 uncompressed_size ++ uncompressed_index

/-! ## The writer (src/xp3writer.py) -/

/-- The writer state (class `XP3Writer`): sink contents, sink cursor, whether
the sink has `getvalue` (a `BytesIO` does, a plain file does not), the
accumulated entries, the recorded paths (`_filenames`), the numpy switch and
the packed-up flag. -/
structure XP3Writer where
  buffer : List Nat
  bufferPos : Nat
  hasGetvalue : Bool
  file_entries : List XP3FileEntry
  filenames : List String
  use_numpy : Bool
  packed_up : Bool
deriving DecidableEq, Repr

/-- Constructor `XP3Writer.__init__` (src/xp3writer.py lines 10 to 26): write the
signature and an 8-byte zero placeholder for the index offset. -/
def XP3Writer.mkNew (hasGetvalue use_numpy : Bool) : XP3Writer :=
  { buffer := XP3Signature ++ pack64 0
    bufferPos := XP3Signature.length + 8
    hasGetvalue := hasGetvalue
    file_entries := []
    filenames := []
    use_numpy := use_numpy
    packed_up := false }

/-- Method `XP3Writer._create_file_entry` (src/xp3writer.py lines 88 to 140).
`compress` stands for `zlib.compress(..., level=9)` and `md5hex` for
`hashlib.md5(...).hexdigest()` (both external libraries).

The source deflates the input, keeps the compressed form only when strictly
smaller (lines 100 to 110), computes the Adler-32 checksum of the plaintext,
XORs the stored form for encrypted profiles, hashes the lowercased UTF-16LE
path, builds the info record — and then, at line 130, constructs the
`Segment` namedtuple with the keyword argument `compressed`, while the
namedtuple's field (src/structs/file_entry.py line 64) is named
`is_compressed`.  Python therefore raises `TypeError` there on every call;
the remainder of the function (wrapping the segment list, building the
`XP3FileEntry`, returning it with the data) is unreachable. -/
def XP3Writer.create_file_entry (compress : List Nat → List Nat)
    (md5hex : List Nat → String) (use_numpy numpy_available : Bool)
    (internal_filepath : String) (uncompressed_data : List Nat) (offset : Nat)
    (encryption_type : Option String) (timestamp : Nat) :
    Except PyErr (XP3FileEntry × List Nat) :=
  let uncompressed_size := uncompressed_data.length
  let compressed_data := compress uncompressed_data
  let compressed_size := compressed_data.length
  let chosen :=
    if compressed_size ≥ uncompressed_size then (uncompressed_data, uncompressed_size, false)
    else (compressed_data, compressed_size, true)
  let adlr : XP3FileAdler := { value := adler32 uncompressed_data }
  let _time : XP3FileTime := { timestamp := timestamp }
  let is_encrypted : Bool :=
    match encryption_type with
    | none => false
    | some s => if s = "none" then false else true
  let afterEncryption : Except PyErr (Option XP3FileEncryption × Option String × List Nat) :=
    if is_encrypted then
      match encryption_type with
      | none => Except.error PyErr.keyError
      | some et =>
          match XP3File.xor use_numpy numpy_available et adlr.value chosen.1 with
          | Except.error e => Except.error e
          | Except.ok encrypted =>
              match encryption_parameters et with
              | none => Except.error PyErr.keyError
              | some (_, _, _, name) =>
                  let encryption : XP3FileEncryption :=
                    { name := name, adler32 := adlr.value, file_path := internal_filepath }
                  let path_hash := md5hex (utf16le internal_filepath.toLower)
                  Except.ok (some encryption, some path_hash, encrypted)
    else Except.ok (none, none, chosen.1)
  match afterEncryption with
  | Except.error e => Except.error e
  | Except.ok (_encryption, path_hash, _data) =>
      let _info : XP3FileInfo :=
        { is_encrypted := is_encrypted
          uncompressed_size := uncompressed_size
          compressed_size := chosen.2.1
          file_path := if is_encrypted then path_hash.getD "" else internal_filepath }
      let _offset := offset
      -- src/xp3writer.py line 130: `XP3FileSegments.segment(compressed=is_compressed, ...)`
      -- — the namedtuple field is `is_compressed`, so Python raises TypeError here.
      Except.error PyErr.typeError

/-- Method `XP3Writer.add` (src/xp3writer.py lines 36 to 61): refuse after pack-up,
refuse duplicate paths (`FileExistsError`), record the path, then build and
append the entry and its data.  The path is recorded *before*
`_create_file_entry` runs, so a failure there still leaves the path recorded
(mirroring the Python mutation order); the sink and entry list are untouched. -/
def XP3Writer.add (compress : List Nat → List Nat) (md5hex : List Nat → String)
    (numpy_available : Bool) (st : XP3Writer) (internal_filepath : String)
    (file : List Nat) (encryption_type : Option String) (timestamp : Nat) :
    XP3Writer × Except PyErr Unit :=
  if st.packed_up then
    (st, Except.error (PyErr.exception "Archive is already packed up"))
  else if internal_filepath ∈ st.filenames then
    (st, Except.error PyErr.fileExistsError)
  else
    let st1 := { st with filenames := st.filenames ++ [internal_filepath] }
    match XP3Writer.create_file_entry compress md5hex st.use_numpy numpy_available
        internal_filepath file st.bufferPos encryption_type timestamp with
    | Except.error e => (st1, Except.error e)
    | Except.ok (file_entry, data) =>
        ({ st1 with
            file_entries := st1.file_entries ++ [file_entry]
            buffer := bwrite st1.buffer st1.bufferPos data
            bufferPos := st1.bufferPos + data.length },
         Except.ok ())

/-- Method `XP3Writer.pack_up` (src/xp3writer.py lines 63 to 86).  When already
packed up it returns `getvalue()` early — but only when the sink has a
`getvalue` attribute; for a file-backed sink the guard falls through and the
index is serialized and written again at the current cursor, and the header
offset is patched again.  The second component is the returned archive bytes
(`None` when the sink lacks `getvalue`). -/
def XP3Writer.pack_up (compress : List Nat → List Nat) (st : XP3Writer) :
    XP3Writer × Option (List Nat) :=
  if st.packed_up && st.hasGetvalue then
    (st, some st.buffer)
  else
    let file_index := XP3FileIndex.to_bytes compress st.file_entries
    let file_index_offset := st.bufferPos
    let buf1 := bwrite st.buffer file_index_offset file_index
    let buf2 := bwrite buf1 XP3Signature.length (pack64 file_index_offset)
    let st2 := { st with
      buffer := buf2
      bufferPos := XP3Signature.length + 8
      packed_up := true }
    (st2, if st.hasGetvalue then some buf2 else none)

/-! ## Reading a file back (src/structs/file.py, XP3File.read) -/

/-- The segment loop of `XP3File.read` (src/structs/file.py lines 36 to 43).
For each segment the source seeks to `segment.offset`, reads
`segment.compressed_size` bytes, and then evaluates `segment.compressed` —
but the `Segment` namedtuple's field is named `is_compressed`
(src/structs/file_entry.py line 64), so Python raises `AttributeError` on the
first segment; the decompression, the length check against
`uncompressed_size` and the accumulation into the file buffer are unreachable.
An entry with an empty segment list skips the loop and yields empty content. -/
def XP3File.readSegments (buf : List Nat) : List Segment → Except PyErr (List Nat)
  | [] => Except.ok []
  | seg :: _rest =>
      let _data := readUpTo buf seg.offset seg.compressed_size
      -- `if segment.compressed:` — no such attribute on the namedtuple.
      Except.error PyErr.attributeError

/-- Method `XP3File.read` (src/structs/file.py lines 32 to 50): concatenate the
decoded segments; for an encrypted entry raise `XP3DecryptionError` when the
profile is `'none'`/`None` and raw bytes were not requested, and otherwise
run the XOR transform (the source applies it even when `raw=True`, and the
profile lookup raises `KeyError` when the profile is `None`). -/
def XP3File.read (buf : List Nat) (entry : XP3FileEntry)
    (encryption_type : Option String) (raw : Bool)
    (use_numpy numpy_available : Bool) : Except PyErr (List Nat) :=
  match XP3File.readSegments buf entry.segm.segments with
  | Except.error e => Except.error e
  | Except.ok file_buffer =>
      if entry.is_encrypted then
        if (encryption_type = some "none" ∨ encryption_type = none) ∧ raw = false then
          Except.error PyErr.decryptionError
        else
          match encryption_type with
          | none => Except.error PyErr.keyError
          | some et => XP3File.xor use_numpy numpy_available et entry.adlr.value file_buffer
      else Except.ok file_buffer

/-- Method `XP3FileTime.read_from` (src/structs/file_entry.py lines 52 to 57):
read the 8-byte declared size (which must be 8) and the 8-byte stored
timestamp, and return the timestamp integer-divided by 1000.  The writer
stores the caller's timestamp as given (`to_bytes` packs it unchanged), so a
write/read round trip divides the timestamp by 1000. -/
def XP3FileTime.read_from (buf : List Nat) (pos : Nat) :
    Except PyErr (XP3FileTime × Nat) :=
  match readExact buf pos 16 with
  | none => Except.error PyErr.structError
  | some b =>
      if leBytes (b.take 8) ≠ 8 then
        Except.error (PyErr.assertionError "time chunk size")
      else Except.ok ({ timestamp := leBytes (b.drop 8) / 1000 }, pos + 16)

/-! ## Decidable equality for `Except` results, and concrete fixtures -/

instance {e a : Type} [DecidableEq e] [DecidableEq a] : DecidableEq (Except e a)
  | Except.ok x, Except.ok y =>
      if h : x = y then Decidable.isTrue (by rw [h])
      else Decidable.isFalse (by intro hc; cases hc; exact h rfl)
  | Except.ok _, Except.error _ => Decidable.isFalse (by intro hc; cases hc)
  | Except.error _, Except.ok _ => Decidable.isFalse (by intro hc; cases hc)
  | Except.error x, Except.error y =>
      if h : x = y then Decidable.isTrue (by rw [h])
      else Decidable.isFalse (by intro hc; cases hc; exact h rfl)

/-- Bytes of `b'dummydata1'`, the content of the spec's concrete scenario. -/
def dummyData : List Nat := [100, 117, 109, 109, 121, 100, 97, 116, 97, 49]

/-- A concrete archive for the index state machine: header offset 8, legacy
continuation flag at 8, eight reserved bytes, redirect offset 25, raw-index
flag at 25, 8-byte size 2, then the two index bytes. -/
def c4buf : List Nat :=
  pack64 8 ++ [0x80] ++ [0, 0, 0, 0, 0, 0, 0, 0] ++ pack64 25 ++ [0x00] ++
  pack64 2 ++ [7, 9]

/-- A minimal unencrypted file entry used to exercise index serialization. -/
def c6entry : XP3FileEntry :=
  { encryption := none
    time := { timestamp := 0 }
    adlr := { value := 1 }
    segm := { segments := [{ is_compressed := false, offset := 19,
                             uncompressed_size := 0, compressed_size := 0 }] }
    info := { is_encrypted := false, uncompressed_size := 0,
              compressed_size := 0, file_path := "" } }

/-- An encrypted single-segment entry as the writer would describe one:
three stored bytes at offset 19, consistent checksums. -/
def c7entry : XP3FileEntry :=
  { encryption := some { name := [0x65, 0x6C, 0x69, 0x46], adler32 := 1, file_path := "f" }
    time := { timestamp := 0 }
    adlr := { value := 1 }
    segm := { segments := [{ is_compressed := false, offset := 19,
                             uncompressed_size := 3, compressed_size := 3 }] }
    info := { is_encrypted := true, uncompressed_size := 3,
              compressed_size := 3, file_path := "h" } }

/-- A live writer that already holds the path `duplicate_file`. -/
def c8state : XP3Writer :=
  { buffer := XP3Signature ++ pack64 0
    bufferPos := 19
    hasGetvalue := true
    file_entries := []
    filenames := ["duplicate_file"]
    use_numpy := true
    packed_up := false }

/-- A packed-up writer over a file-backed sink (no `getvalue`): 19 header
bytes followed by 11 bytes standing for already-written archive content. -/
def c9state : XP3Writer :=
  { buffer := XP3Signature ++ pack64 19 ++ [1, 2, 3, 4, 5, 6, 7, 8, 9, 10, 11]
    bufferPos := 19
    hasGetvalue := false
    file_entries := []
    filenames := []
    use_numpy := true
    packed_up := true }

/-- A packed-up writer over an in-memory sink. -/
def c10state : XP3Writer :=
  { buffer := XP3Signature ++ pack64 19
    bufferPos := 19
    hasGetvalue := true
    file_entries := []
    filenames := ["old_file"]
    use_numpy := true
    packed_up := true }

/-! ## Supporting lemmas about the XOR keystream -/

/-- XOR with the same key twice is the identity. -/
theorem xor_cancel_twice (a k : Nat) : a ^^^ k ^^^ k = a := by
  rw [Nat.xor_assoc, Nat.xor_self, Nat.xor_zero]

/-- XOR with two keys, twice each, is the identity. -/
theorem xor_cancel_two_keys (x y z : Nat) : x ^^^ y ^^^ z ^^^ y ^^^ z = x := by
  rw [Nat.xor_assoc x y z, Nat.xor_assoc x (y ^^^ z) y, Nat.xor_comm (y ^^^ z) y,
    Nat.xor_cancel_left y z, Nat.xor_assoc, Nat.xor_self, Nat.xor_zero]

/-- XORing a list with a fixed key twice recovers the list. -/
theorem map_xor_cancel (k : Nat) (l : List Nat) :
    (l.map (fun x => x ^^^ k)).map (fun x => x ^^^ k) = l := by
  induction l with
  | nil => rfl
  | cons a t ih => simp only [List.map_cons, xor_cancel_twice, ih]

/-- The vectorized backend is an involution for every profile shape, checksum
and input, empty input included. -/
theorem XP3File.xorNumpy_involutive (mk sk : Nat) (fb : Bool) (a : Nat) (d : List Nat) :
    XP3File.xorNumpy mk sk fb a (XP3File.xorNumpy mk sk fb a d) = d := by
  unfold XP3File.xorNumpy
  cases fb with
  | false => simp only [Bool.false_eq_true, if_false, map_xor_cancel]
  | true =>
      cases d with
      | nil => simp
      | cons b rest =>
          simp only [if_true, List.map_cons, xor_cancel_two_keys, map_xor_cancel]

/-- The scalar backend agrees with the vectorized backend whenever the input
is nonempty or the profile does not XOR the first byte. -/
theorem XP3File.xorPython_eq_xorNumpy (mk sk : Nat) (fb : Bool) (a : Nat) (d : List Nat)
    (h : d ≠ [] ∨ fb = false) :
    XP3File.xorPython mk sk fb a d = Except.ok (XP3File.xorNumpy mk sk fb a d) := by
  unfold XP3File.xorPython XP3File.xorNumpy
  cases fb with
  | false => simp
  | true =>
      cases d with
      | nil =>
          rcases h with h | h
          · exact absurd rfl h
          · simp at h
      | cons b rest => simp

/-- A closed instance of the two lemmas above, showing they are not vacuous. -/
theorem xor_backends_sample :
    XP3File.xorPython 0x1548E29C 0xD7 true 0 [1, 2, 3]
      = Except.ok (XP3File.xorNumpy 0x1548E29C 0xD7 true 0 [1, 2, 3]) ∧
    XP3File.xorNumpy 0x1548E29C 0xD7 true 0
      (XP3File.xorNumpy 0x1548E29C 0xD7 true 0 [1, 2, 3]) = [1, 2, 3] :=
  ⟨XP3File.xorPython_eq_xorNumpy _ _ _ _ _ (Or.inl (by decide)),
   XP3File.xorNumpy_involutive _ _ _ _ _⟩

/-! ## Claim theorems -/

/-- C1.  The claimed round trip — add each (path, bytes, profile, timestamp)
tuple, finalize, reopen, read back equal path/content/timestamp — fails on the
code for every input: already at the spec's own scenario
(`add('dummy_file', b'dummydata1', 'none', 0)`) `_create_file_entry` raises
`TypeError` (the `Segment` namedtuple is constructed with keyword `compressed`
but its field is `is_compressed`), so no entry is ever created and the archive
produced by finalize contains no files. -/
theorem c1_round_trip_breaks_at_add :
    (XP3Writer.add (fun x => x) (fun _ => "") true (XP3Writer.mkNew true true)
        "dummy_file" dummyData (some "none") 0).2 = Except.error PyErr.typeError ∧
    (XP3Writer.add (fun x => x) (fun _ => "") true (XP3Writer.mkNew true true)
        "dummy_file" dummyData (some "none") 0).1.file_entries = [] := by
  exact ⟨by decide, by decide⟩

/-- C2.  The XOR keystream transform is not self-inverse at every byte length
from 0: with the scalar backend and a first-byte profile (`neko_vol0`), the
transform on the empty byte string raises `IndexError` at
`data[0] ^= first_byte_key`, so applying it twice cannot return the original
(the vectorized backend does handle this case; see
`XP3File.xorNumpy_involutive`). -/
theorem c2_double_xor_fails_on_empty_scalar :
    (XP3File.xor false true "neko_vol0" 0 []).bind
        (fun d => XP3File.xor false true "neko_vol0" 0 d)
      = Except.error PyErr.indexError := by
  decide

/-- C3.  The vectorized and scalar XOR backends do not produce identical
results for every input: on the empty byte string with profile `neko_vol0`
the scalar backend raises `IndexError` while the vectorized backend returns
the empty byte string (they do agree on all nonempty inputs and on all inputs
for profiles that do not XOR the first byte; see
`XP3File.xorPython_eq_xorNumpy`). -/
theorem c3_backends_disagree_on_empty :
    XP3File.xor false true "neko_vol0" 0 [] = Except.error PyErr.indexError ∧
    XP3File.xor true true "neko_vol0" 0 [] = Except.ok [] := by
  exact ⟨by decide, by decide⟩

/-- C5.  No segment is ever stored: after choosing the compressed form (here
the stand-in deflate shrinks 12 bytes to 1, so `is_compressed` would be true),
`_create_file_entry` raises `TypeError` constructing the `Segment` namedtuple
(keyword `compressed` against field `is_compressed`), so the claimed
stored-segment properties fail for every input. -/
theorem c5_segment_construction_raises :
    XP3Writer.create_file_entry (fun _ => [0]) (fun _ => "") true true
        "dummy_file_3" (List.replicate 12 49) 19 none 3000
      = Except.error PyErr.typeError := by
  decide

/-- C7.  Reading an encrypted entry does not raise the decryption-required
error, and requesting raw bytes does not return the stored bytes: the segment
loop of `XP3File.read` evaluates `segment.compressed`, an attribute the
`Segment` namedtuple does not have, so every entry with at least one segment
fails with `AttributeError` before the decryption check is reached. -/
theorem c7_read_raises_attribute_error :
    XP3File.read (List.replicate 30 0) c7entry (some "none") false true true
      = Except.error PyErr.attributeError ∧
    XP3File.read (List.replicate 30 0) c7entry (some "none") true true true
      = Except.error PyErr.attributeError := by
  exact ⟨by decide, by decide⟩

/-- C9.  Finalize is not idempotent on a file-backed sink: with `packed_up`
already set and no `getvalue` attribute, `pack_up` falls through its early
return, serializes the (empty) index again and writes it at the current
cursor — position 19, on top of archive content — and returns `None` instead
of the archive bytes. -/
theorem c9_repeated_pack_up_writes_again :
    (XP3Writer.pack_up (fun x => x) c9state).1.buffer ≠ c9state.buffer ∧
    (XP3Writer.pack_up (fun x => x) c9state).2 = none := by
  exact ⟨by decide, by decide⟩

/-- C4.  Index location resolution behaves as the claimed state machine:
a zero header offset is a fatal missing-index error; a non-continuation flag
is decoded in place; the continuation flag 0x80 triggers exactly one
indirection (8 reserved bytes, an 8-byte redirect offset, the flag re-read at
the new location) after which decoding proceeds with the new flag — a second
0x80 falls into the final decode where any flag other than `COMPRESSED` or
`RAW` is a fatal format error; the compressed branch reads both sizes,
inflates, and fails fatally when the inflated length differs from the declared
uncompressed size; the raw branch reads the 8-byte size and that many bytes
verbatim. -/
theorem c4_read_index_state_machine
    (decomp : List Nat → Option (List Nat)) (buf : List Nat) (pos : Nat)
    (ob : List Nat) (hob : readExact buf pos 8 = some ob) :
    (leBytes ob = 0 →
      XP3FileIndex.read_index decomp buf pos
        = Except.error (PyErr.assertionError "File index offset is missing")) ∧
    (∀ flag, leBytes ob ≠ 0 → byteAt buf (leBytes ob) = some flag →
      flag ≠ XP3FileIndexContinue →
      XP3FileIndex.read_index decomp buf pos
        = XP3FileIndex.decode_at decomp buf flag (leBytes ob + 1)) ∧
    (∀ c flag2, leBytes ob ≠ 0 →
      byteAt buf (leBytes ob) = some XP3FileIndexContinue →
      readExact buf (leBytes ob + 1) 16 = some c →
      byteAt buf (leBytes (c.drop 8)) = some flag2 →
      XP3FileIndex.read_index decomp buf pos
        = XP3FileIndex.decode_at decomp buf flag2 (leBytes (c.drop 8) + 1)) ∧
    (∀ flag cur, flag ≠ XP3FileIndexCompressed → flag ≠ Xp3FileIndexUncompressed →
      XP3FileIndex.decode_at decomp buf flag cur
        = Except.error (PyErr.assertionError "Unexpected index flag")) ∧
    (∀ cur sz index, readExact buf cur 16 = some sz →
      decomp (readUpTo buf (cur + 16) (leBytes (sz.take 8))) = some index →
      XP3FileIndex.decode_at decomp buf XP3FileIndexCompressed cur
        = if index.length = leBytes (sz.drop 8) then Except.ok index
          else Except.error (PyErr.assertionError "Index size mismatch")) ∧
    (∀ cur szb, readExact buf cur 8 = some szb →
      XP3FileIndex.decode_at decomp buf Xp3FileIndexUncompressed cur
        = Except.ok (readUpTo buf (cur + 8) (leBytes szb))) := by
  refine ⟨?_, ?_, ?_, ?_, ?_, ?_⟩
  · intro h0
    unfold XP3FileIndex.read_index
    rw [hob]
    simp only [h0, if_pos rfl, if_true]
  · intro flag h0 hflag hne
    unfold XP3FileIndex.read_index
    rw [hob]
    simp only [if_neg h0, hflag, if_neg hne]
  · intro c flag2 h0 hflag hc hflag2
    unfold XP3FileIndex.read_index
    rw [hob]
    simp only [if_neg h0, hflag, if_pos rfl, hc, hflag2, if_true]
  · intro flag cur h1 h2
    unfold XP3FileIndex.decode_at
    rw [if_neg h1, if_neg h2]
  · intro cur sz index hsz hdec
    unfold XP3FileIndex.decode_at
    rw [if_pos rfl, hsz]
    simp only [hdec]
    by_cases h : index.length = leBytes (sz.drop 8)
    · simp [h]
    · simp [h]
  · intro cur szb hszb
    unfold XP3FileIndex.decode_at
    rw [if_neg (by decide : Xp3FileIndexUncompressed ≠ XP3FileIndexCompressed),
      if_pos rfl, hszb]

/-- Witness for C4: on the concrete archive `c4buf` (header offset 8,
continuation at 8 redirecting to 25, raw index of two bytes) the state
machine resolves to the raw index bytes. -/
theorem c4_read_index_state_machine_witness :
    XP3FileIndex.read_index (fun x => some x) c4buf 0 = Except.ok [7, 9] := by
  have h := c4_read_index_state_machine (fun x => some x) c4buf 0 (pack64 8)
    (by decide)
  have h3 := h.2.2.1 ([0, 0, 0, 0, 0, 0, 0, 0] ++ pack64 25) Xp3FileIndexUncompressed
    (by decide) (by decide) (by decide) (by decide)
  have h6 := h.2.2.2.2.2 26 (pack64 2) (by decide)
  rw [h3]
  have hcur : leBytes (List.drop 8 ([0, 0, 0, 0, 0, 0, 0, 0] ++ pack64 25)) + 1 = 26 := by
    decide
  rw [hcur, h6]
  decide

/-- C6.  Index serialization emits the deflated form exactly when the
compressed size plus its 17-byte header is strictly below the uncompressed
size plus the 9-byte raw header, emits the raw form otherwise, and in either
case the serialized index (header included) is never longer than the raw
alternative. -/
theorem c6_index_serialization (compress : List Nat → List Nat)
    (entries : List XP3FileEntry) (u c : List Nat)
    (hu : u = (entries.map XP3FileEntry.to_bytes).flatten)
    (hc : c = compress u) :
    (c.length + 1 + 8 + 8 < u.length + 1 + 8 →
      XP3FileIndex.to_bytes compress entries
        = [XP3FileIndexCompressed] ++ pack64 c.length ++ pack64 u.length ++ c) ∧
    (¬ (c.length + 1 + 8 + 8 < u.length + 1 + 8) →
      XP3FileIndex.to_bytes compress entries
        = [Xp3FileIndexUncompressed] ++ pack64 u.length ++ u) ∧
    (XP3FileIndex.to_bytes compress entries).length
      ≤ ([Xp3FileIndexUncompressed] ++ pack64 u.length ++ u).length := by
  subst hu
  subst hc
  unfold XP3FileIndex.to_bytes
  refine ⟨fun h => ?_, fun h => ?_, ?_⟩
  · rw [if_pos h]
  · rw [if_neg h]
  · by_cases h : (compress ((entries.map XP3FileEntry.to_bytes).flatten)).length + 1 + 8 + 8
        < ((entries.map XP3FileEntry.to_bytes).flatten).length + 1 + 8
    · rw [if_pos h]
      simp only [List.length_append, List.length_cons, List.length_nil, pack64,
        List.length_singleton]
      omega
    · rw [if_neg h]

set_option maxRecDepth 40000 in
/-- Witness for C6: with no entries and an identity stand-in for deflate the
raw form is emitted (17 is not below 9), and with one concrete entry and a
stand-in deflate that shrinks the 124-byte serialization to one byte the
compressed form is emitted. -/
theorem c6_index_serialization_witness :
    XP3FileIndex.to_bytes (fun x => x) []
      = [Xp3FileIndexUncompressed] ++ pack64 0 ++ [] ∧
    XP3FileIndex.to_bytes (fun _ => [0]) [c6entry]
      = [XP3FileIndexCompressed] ++ pack64 1
          ++ pack64 (XP3FileEntry.to_bytes c6entry).length ++ [0] := by
  constructor
  · exact (c6_index_serialization (fun x => x) [] [] [] rfl rfl).2.1 (by decide)
  · have h := (c6_index_serialization (fun _ => [0]) [c6entry]
      ((List.map XP3FileEntry.to_bytes [c6entry]).flatten) [0] rfl rfl).1 (by decide)
    rw [h]
    decide

/-- C8.  A second add of an already-recorded path is rejected with
`FileExistsError` before any encoding work, leaving the whole writer state —
entry list, recorded paths, sink contents and sink position — unchanged. -/
theorem c8_duplicate_add_rejected (compress : List Nat → List Nat)
    (md5hex : List Nat → String) (numpy_available : Bool) (st : XP3Writer)
    (path : String) (file : List Nat) (encryption_type : Option String)
    (timestamp : Nat) (hdup : path ∈ st.filenames)
    (hlive : st.packed_up = false) :
    XP3Writer.add compress md5hex numpy_available st path file encryption_type
        timestamp
      = (st, Except.error PyErr.fileExistsError) := by
  unfold XP3Writer.add
  simp only [hlive, Bool.false_eq_true, if_false, if_pos hdup]

/-- Witness for C8: the concrete writer `c8state` already holds
`duplicate_file`; adding it again returns the duplicate error and the state
itself. -/
theorem c8_duplicate_add_rejected_witness :
    XP3Writer.add (fun x => x) (fun _ => "") true c8state "duplicate_file"
        [49, 50, 51, 52, 53] none 0
      = (c8state, Except.error PyErr.fileExistsError) :=
  c8_duplicate_add_rejected (fun x => x) (fun _ => "") true c8state
    "duplicate_file" [49, 50, 51, 52, 53] none 0 (by decide) rfl

/-- C10.  After finalize has completed, every add call is rejected up front
with the packed-up error, before the path is recorded or the sink touched:
the writer state — entry list, recorded paths, sink — is returned unchanged. -/
theorem c10_add_after_pack_up_rejected (compress : List Nat → List Nat)
    (md5hex : List Nat → String) (numpy_available : Bool) (st : XP3Writer)
    (path : String) (file : List Nat) (encryption_type : Option String)
    (timestamp : Nat) (hpacked : st.packed_up = true) :
    XP3Writer.add compress md5hex numpy_available st path file encryption_type
        timestamp
      = (st, Except.error (PyErr.exception "Archive is already packed up")) := by
  unfold XP3Writer.add
  simp only [hpacked, if_true]

/-- Witness for C10: adding to the concrete packed-up writer `c10state` is
rejected and the state is unchanged. -/
theorem c10_add_after_pack_up_rejected_witness :
    XP3Writer.add (fun x => x) (fun _ => "") true c10state "new_file"
        [1, 2, 3] none 0
      = (c10state, Except.error (PyErr.exception "Archive is already packed up")) :=
  c10_add_after_pack_up_rejected (fun x => x) (fun _ => "") true c10state
    "new_file" [1, 2, 3] none 0 rfl

/-! ## Supporting lemmas about serialization -/

/-- Unpacking an 8-byte little-endian field recovers any value below 2^64. -/
theorem leBytes_pack64 (n : Nat) (h : n < 2 ^ 64) : leBytes (pack64 n) = n := by
  simp only [pack64, leBytes, Nat.shiftRight_eq_div_pow]
  omega

/-- Parsing a serialized time chunk yields the stored timestamp divided by
1000: the writer records the caller's timestamp verbatim (milliseconds per
its docstring) while `read_from` converts to seconds, so nonzero timestamps
do not survive a round trip unchanged. -/
theorem time_parse_divides_by_1000 (t : XP3FileTime) (h : t.timestamp < 2 ^ 64) :
    XP3FileTime.read_from (XP3FileTime.to_bytes t) 4
      = Except.ok ({ timestamp := t.timestamp / 1000 }, 20) := by
  unfold XP3FileTime.read_from XP3FileTime.to_bytes
  have hlen : readExact ([0x74, 0x69, 0x6D, 0x65] ++ pack64 8 ++ pack64 t.timestamp) 4 16
      = some (pack64 8 ++ pack64 t.timestamp) := by
    simp [readExact, pack64]
  rw [hlen]
  have htake : (pack64 8 ++ pack64 t.timestamp).take 8 = pack64 8 :=
    List.take_left' (by rfl)
  have hdrop : (pack64 8 ++ pack64 t.timestamp).drop 8 = pack64 t.timestamp :=
    List.drop_left' (by rfl)
  simp only [htake, hdrop, leBytes_pack64 t.timestamp h]
  simp only [leBytes, pack64]
  simp
